import Mathlib

/- Verification development for the A/B test calculator.

The statistics and decision engine of the repository is embedded shallowly:
JavaScript numbers are modelled as exact rationals extended with the IEEE
special values (positive infinity, negative infinity, NaN), and the library
function Math.sqrt is modelled by a parameter `s : Rat -> Rat` applied to the
(finite, nonnegative) radicand, constrained where needed by `SqrtNonneg`
(Math.sqrt returns a nonnegative number on nonnegative arguments).  All
control flow, guards and formulas follow the source component
(calculateConversionRate, calculateStandardError, calculateConfidenceInterval,
validateInputs, calculateResults, getRecommendation). -/

namespace ABTest

/-- A JavaScript number: a finite value (modelled exactly as a rational),
positive infinity, negative infinity, or NaN.  The source never produces a
negative zero on the paths modelled here, so a single zero suffices. -/
inductive JSNum where
  | fin (q : ℚ)
  | posInf
  | negInf
  | nan
deriving DecidableEq

/-- JavaScript addition on extended numbers. -/
def jsAdd : JSNum → JSNum → JSNum
  | .nan, _ => .nan
  | _, .nan => .nan
  | .posInf, .negInf => .nan
  | .negInf, .posInf => .nan
  | .posInf, _ => .posInf
  | _, .posInf => .posInf
  | .negInf, _ => .negInf
  | _, .negInf => .negInf
  | .fin a, .fin b => .fin (a + b)

/-- JavaScript subtraction on extended numbers. -/
def jsSub : JSNum → JSNum → JSNum
  | .nan, _ => .nan
  | _, .nan => .nan
  | .posInf, .posInf => .nan
  | .negInf, .negInf => .nan
  | .posInf, _ => .posInf
  | .negInf, _ => .negInf
  | .fin _, .posInf => .negInf
  | .fin _, .negInf => .posInf
  | .fin a, .fin b => .fin (a - b)

/-- JavaScript multiplication on extended numbers. -/
def jsMul : JSNum → JSNum → JSNum
  | .nan, _ => .nan
  | _, .nan => .nan
  | .posInf, .posInf => .posInf
  | .posInf, .negInf => .negInf
  | .negInf, .posInf => .negInf
  | .negInf, .negInf => .posInf
  | .posInf, .fin b => if 0 < b then .posInf else if b < 0 then .negInf else .nan
  | .negInf, .fin b => if 0 < b then .negInf else if b < 0 then .posInf else .nan
  | .fin a, .posInf => if 0 < a then .posInf else if a < 0 then .negInf else .nan
  | .fin a, .negInf => if 0 < a then .negInf else if a < 0 then .posInf else .nan
  | .fin a, .fin b => .fin (a * b)

/-- JavaScript division on extended numbers.  Division of a nonzero finite
value by (positive) zero yields a signed infinity, and 0 / 0 yields NaN. -/
def jsDiv : JSNum → JSNum → JSNum
  | .nan, _ => .nan
  | _, .nan => .nan
  | .posInf, .posInf => .nan
  | .posInf, .negInf => .nan
  | .negInf, .posInf => .nan
  | .negInf, .negInf => .nan
  | .posInf, .fin b => if 0 ≤ b then .posInf else .negInf
  | .negInf, .fin b => if 0 ≤ b then .negInf else .posInf
  | .fin _, .posInf => .fin 0
  | .fin _, .negInf => .fin 0
  | .fin a, .fin b =>
      if b = 0 then (if 0 < a then .posInf else if a < 0 then .negInf else .nan)
      else .fin (a / b)

/-- JavaScript Math.max on two extended numbers: NaN if either argument is
NaN, otherwise the larger argument. -/
def jsMax : JSNum → JSNum → JSNum
  | .nan, _ => .nan
  | _, .nan => .nan
  | .posInf, _ => .posInf
  | _, .posInf => .posInf
  | .negInf, b => b
  | a, .negInf => a
  | .fin a, .fin b => .fin (max a b)

/-- JavaScript Math.min on two extended numbers: NaN if either argument is
NaN, otherwise the smaller argument. -/
def jsMin : JSNum → JSNum → JSNum
  | .nan, _ => .nan
  | _, .nan => .nan
  | .negInf, _ => .negInf
  | _, .negInf => .negInf
  | .posInf, b => b
  | a, .posInf => a
  | .fin a, .fin b => .fin (min a b)

/-- JavaScript strict greater-than: any comparison involving NaN is false. -/
def jsGt : JSNum → JSNum → Bool
  | .nan, _ => false
  | _, .nan => false
  | .posInf, .posInf => false
  | .posInf, _ => true
  | .negInf, _ => false
  | .fin _, .posInf => false
  | .fin _, .negInf => true
  | .fin a, .fin b => decide (b < a)

/-- JavaScript Math.abs on extended numbers. -/
def jsAbs : JSNum → JSNum
  | .fin a => .fin |a|
  | .posInf => .posInf
  | .negInf => .posInf
  | .nan => .nan

/-- JavaScript Math.sqrt on extended numbers; the square root of finite
nonnegative values is supplied by the parameter `s`, and a negative argument
yields NaN. -/
def jsSqrt (s : ℚ → ℚ) : JSNum → JSNum
  | .fin a => if a < 0 then .nan else .fin (s a)
  | .posInf => .posInf
  | .negInf => .nan
  | .nan => .nan

/-- The only property of the square-root parameter the theorems need:
Math.sqrt returns a nonnegative number on nonnegative arguments. -/
def SqrtNonneg (s : ℚ → ℚ) : Prop := ∀ q : ℚ, 0 ≤ q → 0 ≤ s q

/-- The BusinessMetrics record of the source. -/
structure BusinessMetrics where
  pipelineValue : ℚ
  closeRate : ℚ
  monthlyVisitors : ℚ
deriving DecidableEq

/-- The TestVariant record of the source. -/
structure TestVariant where
  name : String
  visitors : ℚ
  conversions : ℚ
deriving DecidableEq

/-- The variant mapping of the source: a string-keyed record that always
holds the two mandatory entries under the keys "control" and "variant", plus
any additional entries in insertion order (their keys are distinct from the
two mandatory keys in the source record). -/
structure Variants where
  control : TestVariant
  variant : TestVariant
  additional : List (String × TestVariant)
deriving DecidableEq

/-- A field-level validation error. -/
structure ValidationError where
  field : String
  message : String
deriving DecidableEq

/-- One entry of TestResults.variants. -/
structure VariantResult where
  key : String
  name : String
  rate : ℚ
  error : ℚ
  revenue : ℚ
  visitors : ℚ
deriving DecidableEq

/-- The riskLevel enumeration of TestResults. -/
inductive RiskLevel where
  | low
  | medium
  | high
deriving DecidableEq

/-- The revenueImpact record of TestResults. -/
structure RevenueImpact where
  monthly : ℚ
  annual : ℚ
deriving DecidableEq

/-- The TestResults record of the source.  The improvement field is an
extended number because the source computes it by an unguarded division by
the control rate. -/
structure TestResults where
  winner : String
  improvement : JSNum
  monthlyRevenue : ℚ
  riskLevel : RiskLevel
  variants : List VariantResult
  revenueImpact : RevenueImpact
deriving DecidableEq

/-- The confidence enumeration of a Recommendation. -/
inductive Confidence where
  | high
  | medium
  | low
deriving DecidableEq

/-- The Recommendation record of the source. -/
structure Recommendation where
  text : String
  color : String
  confidence : Confidence
  action : String
deriving DecidableEq

/-- calculateConversionRate from the source: 0 when visitors is 0, otherwise
(conversions / visitors) * 100. -/
def calculateConversionRate (conversions visitors : ℚ) : ℚ :=
  if visitors = 0 then 0 else conversions / visitors * 100

/-- calculateStandardError from the source: 0 when visitors is 0, otherwise
sqrt((proportion * (1 - proportion)) / visitors) * 100 with
proportion = rate / 100.  On every call site the radicand is nonnegative
(rates lie in [0, 100] and visitors is positive), so the finite-valued model
with the square-root parameter `s` is faithful there. -/
def calculateStandardError (s : ℚ → ℚ) (rate visitors : ℚ) : ℚ :=
  if visitors = 0 then 0
  else s (rate / 100 * (1 - rate / 100) / visitors) * 100

/-- calculateConfidenceInterval from the source.  There is no guard on
visitors, so the computation is carried out on extended numbers:
se = sqrt((rate / 100 * (1 - rate / 100)) / visitors), and the returned pair
is [max(0, rate - 1.96 * se * 100), min(100, rate + 1.96 * se * 100)]. -/
def calculateConfidenceInterval (s : ℚ → ℚ) (rate visitors : ℚ) : JSNum × JSNum :=
  let se : JSNum :=
    jsSqrt s (jsDiv (JSNum.fin (rate / 100 * (1 - rate / 100))) (JSNum.fin visitors))
  (jsMax (JSNum.fin 0)
     (jsSub (JSNum.fin rate) (jsMul (jsMul (JSNum.fin 1.96) se) (JSNum.fin 100))),
   jsMin (JSNum.fin 100)
     (jsAdd (JSNum.fin rate) (jsMul (jsMul (JSNum.fin 1.96) se) (JSNum.fin 100))))

/-- The three per-variant checks of validateInputs, applied to a mandatory
entry stored under `key`. -/
def variantErrors (key : String) (v : TestVariant) : List ValidationError :=
  (if v.visitors ≤ 0 then
    [⟨key ++ "Visitors", v.name ++ " visitors must be greater than 0"⟩] else [])
  ++ (if v.conversions < 0 then
    [⟨key ++ "Conversions", v.name ++ " conversions cannot be negative"⟩] else [])
  ++ (if v.conversions > v.visitors then
    [⟨key ++ "Conversions", v.name ++ " conversions cannot exceed visitors"⟩] else [])

/-- validateInputs from the source: business-metric checks followed by the
per-variant checks of the two mandatory entries only.  The source returns the
error list together with the flag errors.length === 0; here the list alone is
returned and validity is the list being empty. -/
def validateInputs (bm : BusinessMetrics) (vs : Variants) : List ValidationError :=
  (if bm.pipelineValue ≤ 0 then
    [⟨"pipelineValue", "Pipeline value must be greater than 0"⟩] else [])
  ++ (if bm.closeRate ≤ 0 ∨ bm.closeRate > 100 then
    [⟨"closeRate", "Close rate must be between 0 and 100"⟩] else [])
  ++ (if bm.monthlyVisitors ≤ 0 then
    [⟨"monthlyVisitors", "Monthly visitors must be greater than 0"⟩] else [])
  ++ variantErrors "control" vs.control
  ++ variantErrors "variant" vs.variant

/-- The per-variant result record built inside calculateResults. -/
def mkVariantResult (s : ℚ → ℚ) (bm : BusinessMetrics) (key : String)
    (variant : TestVariant) : VariantResult :=
  let rate := calculateConversionRate variant.conversions variant.visitors
  { key := key
    name := variant.name
    rate := rate
    error := calculateStandardError s rate variant.visitors
    revenue := bm.monthlyVisitors * (rate / 100) * bm.pipelineValue * (bm.closeRate / 100)
    visitors := variant.visitors }

/-- The additional-variant pass of calculateResults: entries whose key is not
"control" or "variant", kept only when visitors > 0 and
0 ≤ conversions ≤ visitors. -/
def additionalVariantResults (s : ℚ → ℚ) (bm : BusinessMetrics)
    (additional : List (String × TestVariant)) : List VariantResult :=
  (additional.filter (fun kv => !(kv.1 == "control" || kv.1 == "variant"))).filterMap
    (fun kv =>
      if kv.2.visitors ≤ 0 ∨ kv.2.conversions < 0 ∨ kv.2.conversions > kv.2.visitors
      then none
      else some (mkVariantResult s bm kv.1 kv.2))

/-- The variantResults list of calculateResults: the two mandatory entries
followed by the valid additional entries. -/
def variantResults (s : ℚ → ℚ) (bm : BusinessMetrics) (vs : Variants) :
    List VariantResult :=
  mkVariantResult s bm "control" vs.control ::
    mkVariantResult s bm "variant" vs.variant ::
      additionalVariantResults s bm vs.additional

/-- The lookup variantResults.find(v => v.key === "control") of the source. -/
def controlResult? (l : List VariantResult) : Option VariantResult :=
  l.find? (fun v => v.key == "control")

/-- The reduction (best, current) => current.rate > best.rate ? current : best
of the source, with the first element as the initial accumulator. -/
def reduceBest (b : VariantResult) (l : List VariantResult) : VariantResult :=
  l.foldl (fun best current => if best.rate < current.rate then current else best) b

/-- The best-variant selection of the source: filter out the control entry and
reduce; an empty reduction throws in the source (caught, yielding null), which
is modelled by none. -/
def bestVariant? (l : List VariantResult) : Option VariantResult :=
  match l.filter (fun v => v.key != "control") with
  | [] => none
  | b :: rest => some (reduceBest b rest)

/-- The per-variant significance test of calculateResults: control is flagged
true; any other variant is flagged by
|variant.rate - control.rate| / sqrt(variant.error ^ 2 + control.error ^ 2)
being strictly greater than 1.96 under JavaScript comparison. -/
def significantFlag (s : ℚ → ℚ) (controlResult variant : VariantResult) : Bool :=
  if variant.key = "control" then true
  else
    jsGt (jsDiv (JSNum.fin |variant.rate - controlResult.rate|)
                (jsSqrt s (JSNum.fin (variant.error ^ 2 + controlResult.error ^ 2))))
         (JSNum.fin 1.96)

/-- The TestResults record assembled by calculateResults once the control and
best entries are at hand. -/
def buildTestResults (s : ℚ → ℚ) (vrs : List VariantResult)
    (controlResult bestVariant : VariantResult) : TestResults :=
  let improvement : JSNum :=
    jsMul (jsDiv (JSNum.fin (bestVariant.rate - controlResult.rate))
                 (JSNum.fin controlResult.rate))
          (JSNum.fin 100)
  let monthlyImpact : ℚ := bestVariant.revenue - controlResult.revenue
  let significantResults : List Bool := vrs.map (significantFlag s controlResult)
  { winner := if controlResult.rate < bestVariant.rate then bestVariant.name
              else controlResult.name
    improvement := improvement
    monthlyRevenue := bestVariant.revenue
    riskLevel :=
      if significantResults.all (fun b => b) then
        (if jsGt (jsAbs improvement) (JSNum.fin 20) then RiskLevel.low
         else RiskLevel.medium)
      else RiskLevel.high
    variants := vrs
    revenueImpact := ⟨monthlyImpact, monthlyImpact * 12⟩ }

/-- calculateResults from the source: null on validation failure, otherwise
the TestResults built from the variant results, the control entry and the
best non-control entry. -/
def calculateResults (s : ℚ → ℚ) (bm : BusinessMetrics) (vs : Variants) :
    Option TestResults :=
  if validateInputs bm vs = [] then
    (controlResult? (variantResults s bm vs)).bind fun controlResult =>
      (bestVariant? (variantResults s bm vs)).map fun bestVariant =>
        buildTestResults s (variantResults s bm vs) controlResult bestVariant
  else none

/-- getRecommendation from the source: sample confidence is high when
sampleSize ≥ requiredSample, medium when sampleSize ≥ requiredSample * 0.5,
low otherwise; then the first matching branch of the decision chain wins. -/
def getRecommendation (improvement sampleSize requiredSample : ℚ) : Recommendation :=
  let sampleConfidence : Confidence :=
    if requiredSample ≤ sampleSize then Confidence.high
    else if requiredSample * 0.5 ≤ sampleSize then Confidence.medium
    else Confidence.low
  if sampleConfidence = Confidence.low then
    ⟨"Need More Data", "#6B7280", Confidence.low,
      "Continue test to reach required sample size"⟩
  else if 10 < improvement then
    ⟨"Implement Variant", "#059669", sampleConfidence,
      "Strong positive impact on revenue"⟩
  else if improvement < -10 then
    ⟨"Keep Control", "#DC2626", sampleConfidence,
      "Variant shows significant decline"⟩
  else
    ⟨"No Clear Winner", "#5e62d1", sampleConfidence,
      "Differences are not significant enough"⟩

end ABTest

namespace ABTest

lemma reduceBest_cons (b c : VariantResult) (l : List VariantResult) :
    reduceBest b (c :: l) = reduceBest (if b.rate < c.rate then c else b) l := rfl

lemma reduceBest_mem (b : VariantResult) (l : List VariantResult) :
    reduceBest b l ∈ b :: l := by
  induction l generalizing b with
  | nil => simp [reduceBest]
  | cons c rest ih =>
    rw [reduceBest_cons]
    by_cases h : b.rate < c.rate
    · rw [if_pos h]
      exact List.mem_cons_of_mem _ (ih c)
    · rw [if_neg h]
      rcases List.mem_cons.mp (ih b) with h1 | h1
      · rw [h1]
        exact List.mem_cons_self _ _
      · exact List.mem_cons_of_mem _ (List.mem_cons_of_mem _ h1)

lemma rate_le_reduceBest (b : VariantResult) (l : List VariantResult) :
    ∀ x ∈ b :: l, x.rate ≤ (reduceBest b l).rate := by
  induction l generalizing b with
  | nil =>
    intro x hx
    rcases List.mem_cons.mp hx with h | h
    · rw [h]; exact le_refl _
    · cases h
  | cons c rest ih =>
    intro x hx
    rw [reduceBest_cons]
    have hb : b.rate ≤ (if b.rate < c.rate then c else b).rate := by
      by_cases h : b.rate < c.rate
      · rw [if_pos h]; exact le_of_lt h
      · rw [if_neg h]
    have hc : c.rate ≤ (if b.rate < c.rate then c else b).rate := by
      by_cases h : b.rate < c.rate
      · rw [if_pos h]
      · rw [if_neg h]; exact le_of_not_lt h
    have hhead := ih (if b.rate < c.rate then c else b) _ (List.mem_cons_self _ _)
    rcases List.mem_cons.mp hx with h | h
    · rw [h]
      exact le_trans hb hhead
    · rcases List.mem_cons.mp h with h1 | h1
      · rw [h1]
        exact le_trans hc hhead
      · exact ih _ x (List.mem_cons_of_mem _ h1)

lemma reduceBest_eq_self (b : VariantResult) (l : List VariantResult)
    (h : ∀ c ∈ l, c.rate ≤ b.rate) : reduceBest b l = b := by
  induction l with
  | nil => rfl
  | cons c rest ih =>
    rw [reduceBest_cons, if_neg (not_lt.mpr (h c (List.mem_cons_self _ _)))]
    exact ih fun x hx => h x (List.mem_cons_of_mem _ hx)

lemma bestVariant?_mem (l : List VariantResult) (b : VariantResult)
    (hb : bestVariant? l = some b) : b ∈ l ∧ b.key ≠ "control" := by
  unfold bestVariant? at hb
  cases hfil : l.filter (fun v => v.key != "control") with
  | nil => rw [hfil] at hb; cases hb
  | cons x rest =>
    rw [hfil] at hb
    have hb' : reduceBest x rest = b := by injection hb
    have hmem : b ∈ l.filter (fun v => v.key != "control") := by
      rw [hfil]; exact hb' ▸ reduceBest_mem x rest
    have hm := List.mem_filter.mp hmem
    exact ⟨hm.1, by simpa [bne_iff_ne] using hm.2⟩

lemma bestVariant?_max (l : List VariantResult) (b : VariantResult)
    (hb : bestVariant? l = some b) :
    ∀ w ∈ l, w.key ≠ "control" → w.rate ≤ b.rate := by
  unfold bestVariant? at hb
  cases hfil : l.filter (fun v => v.key != "control") with
  | nil => rw [hfil] at hb; cases hb
  | cons x rest =>
    rw [hfil] at hb
    have hb' : reduceBest x rest = b := by injection hb
    intro w hw hkey
    have hwf : w ∈ l.filter (fun v => v.key != "control") :=
      List.mem_filter.mpr ⟨hw, by simpa [bne_iff_ne] using hkey⟩
    rw [hfil] at hwf
    exact hb' ▸ rate_le_reduceBest x rest w hwf

lemma calculateResults_inv (s : ℚ → ℚ) (bm : BusinessMetrics) (vs : Variants)
    (r : TestResults) (hr : calculateResults s bm vs = some r) :
    validateInputs bm vs = [] ∧
      ∃ c b, controlResult? (variantResults s bm vs) = some c ∧
        bestVariant? (variantResults s bm vs) = some b ∧
        r = buildTestResults s (variantResults s bm vs) c b := by
  unfold calculateResults at hr
  by_cases hval : validateInputs bm vs = []
  · rw [if_pos hval] at hr
    cases hc : controlResult? (variantResults s bm vs) with
    | none => rw [hc] at hr; cases hr
    | some c =>
      rw [hc] at hr
      cases hb : bestVariant? (variantResults s bm vs) with
      | none => rw [hb] at hr; cases hr
      | some b =>
        rw [hb] at hr
        have hr' : buildTestResults s (variantResults s bm vs) c b = r := by
          injection hr
        exact ⟨hval, c, b, rfl, rfl, hr'.symm⟩
  · rw [if_neg hval] at hr; cases hr

lemma controlResult?_variantResults (s : ℚ → ℚ) (bm : BusinessMetrics) (vs : Variants) :
    controlResult? (variantResults s bm vs) =
      some (mkVariantResult s bm "control" vs.control) := by
  simp [controlResult?, variantResults, List.find?, mkVariantResult]

lemma mem_additionalVariantResults (s : ℚ → ℚ) (bm : BusinessMetrics)
    (l : List (String × TestVariant)) (w : VariantResult)
    (hw : w ∈ additionalVariantResults s bm l) :
    w.key ≠ "control" ∧ w.key ≠ "variant" := by
  unfold additionalVariantResults at hw
  obtain ⟨kv, hkv, hsome⟩ := List.mem_filterMap.mp hw
  obtain ⟨hkvmem, hkey⟩ := List.mem_filter.mp hkv
  by_cases hcond : kv.2.visitors ≤ 0 ∨ kv.2.conversions < 0 ∨ kv.2.conversions > kv.2.visitors
  · rw [if_pos hcond] at hsome; cases hsome
  · rw [if_neg hcond] at hsome
    have hwk : mkVariantResult s bm kv.1 kv.2 = w := by injection hsome
    have hk : kv.1 ≠ "control" ∧ kv.1 ≠ "variant" := by
      constructor <;> intro hcontra <;> rw [hcontra] at hkey <;> simp at hkey
    rw [← hwk]
    exact hk

lemma mkVariantResult_key (s : ℚ → ℚ) (bm : BusinessMetrics) (k : String)
    (v : TestVariant) : (mkVariantResult s bm k v).key = k := rfl

lemma filter_variantResults (s : ℚ → ℚ) (bm : BusinessMetrics) (vs : Variants) :
    (variantResults s bm vs).filter (fun v => v.key != "control") =
      mkVariantResult s bm "variant" vs.variant ::
        additionalVariantResults s bm vs.additional := by
  have hadd : (additionalVariantResults s bm vs.additional).filter
      (fun v => v.key != "control") = additionalVariantResults s bm vs.additional :=
    List.filter_eq_self.mpr fun w hw => by
      simpa [bne_iff_ne] using (mem_additionalVariantResults s bm vs.additional w hw).1
  rw [variantResults, List.filter_cons, List.filter_cons, mkVariantResult_key,
    mkVariantResult_key]
  simp [hadd]

end ABTest

namespace ABTest

lemma ite_singleton_eq_nil {α : Type} {c : Prop} [Decidable c] (x : α) :
    ((if c then [x] else []) = []) ↔ ¬c := by
  by_cases h : c <;> simp [h]

/-- C2 counterexample: at rate 0 and visitors 0 the source computes
sqrt(0 / 0) = NaN, and Math.max/Math.min propagate it, so
calculateConfidenceInterval returns the pair (NaN, NaN) — not a well-defined
interval — although rate 0 lies in [0, 100] and visitors 0 is allowed by the
claim.  The value of the square-root parameter is irrelevant on this input. -/
theorem C2_counterexample :
    calculateConfidenceInterval (fun _ => 0) 0 0 = (JSNum.nan, JSNum.nan) := by
  norm_num [calculateConfidenceInterval, jsSqrt, jsDiv, jsMul, jsSub, jsAdd, jsMax, jsMin]

/-- C2 (amended): for visitors > 0 and 0 ≤ rate ≤ 100 (and any square root
returning nonnegative values on nonnegative arguments),
calculateConfidenceInterval returns finite bounds l and u with
0 ≤ l ≤ rate ≤ u ≤ 100. -/
theorem C2_confidenceInterval_bounds (s : ℚ → ℚ) (rate visitors : ℚ)
    (hs : SqrtNonneg s) (hv : 0 < visitors) (h0 : 0 ≤ rate) (h100 : rate ≤ 100) :
    ∃ l u, calculateConfidenceInterval s rate visitors = (JSNum.fin l, JSNum.fin u) ∧
      0 ≤ l ∧ l ≤ rate ∧ rate ≤ u ∧ u ≤ 100 := by
  have hp : 0 ≤ rate / 100 * (1 - rate / 100) := by
    have h1 : 0 ≤ rate / 100 := by positivity
    have h2 : rate / 100 ≤ 1 := by linarith
    nlinarith
  have harg : 0 ≤ rate / 100 * (1 - rate / 100) / visitors := div_nonneg hp hv.le
  have hse : 0 ≤ s (rate / 100 * (1 - rate / 100) / visitors) := hs _ harg
  have hterm : 0 ≤ 1.96 * s (rate / 100 * (1 - rate / 100) / visitors) * 100 :=
    mul_nonneg (mul_nonneg (by norm_num) hse) (by norm_num)
  refine ⟨max 0 (rate - 1.96 * s (rate / 100 * (1 - rate / 100) / visitors) * 100),
          min 100 (rate + 1.96 * s (rate / 100 * (1 - rate / 100) / visitors) * 100),
          ?_, le_max_left _ _, max_le (by linarith) (by linarith),
          le_min h100 (by linarith), min_le_left _ _⟩
  unfold calculateConfidenceInterval
  simp only [jsDiv]
  rw [if_neg hv.ne']
  simp only [jsSqrt]
  rw [if_neg (not_lt.mpr harg)]
  simp only [jsMul, jsSub, jsAdd, jsMax, jsMin]

/-- C2 witness: the amended bound theorem applied at rate 50 and
visitors 100 with the zero square-root instance. -/
theorem C2_witness :
    ∃ l u, calculateConfidenceInterval (fun _ => 0) 50 100 = (JSNum.fin l, JSNum.fin u) ∧
      0 ≤ l ∧ l ≤ 50 ∧ 50 ≤ u ∧ u ≤ 100 :=
  C2_confidenceInterval_bounds (fun _ => 0) 50 100 (fun _ _ => le_refl 0)
    (by norm_num) (by norm_num) (by norm_num)

/-- C3 counterexample: at improvement 15, sampleSize 6000 and
requiredSample 10000 — inside the claimed range — getRecommendation returns
"Implement Variant", not "No Clear Winner": the improvement > 10 branch of
the source does not require sampleSize ≥ requiredSample. -/
theorem C3_counterexample :
    (10000 : ℚ) * 0.5 ≤ 6000 ∧ (6000 : ℚ) < 10000 ∧ (10 : ℚ) < 15 ∧
      (getRecommendation 15 6000 10000).text = "Implement Variant" ∧
      (getRecommendation 15 6000 10000).text ≠ "No Clear Winner" := by
  refine ⟨by norm_num, by norm_num, by norm_num, ?_, ?_⟩ <;>
    · norm_num [getRecommendation]
      try decide

/-- C3 (amended): for requiredSample * 0.5 ≤ sampleSize < requiredSample and
improvement > 10, the improvement > 10 branch fires with medium sample
confidence, so getRecommendation returns "Implement Variant" with
confidence medium. -/
theorem C3_recommendation_amended (improvement sampleSize requiredSample : ℚ)
    (h1 : requiredSample * 0.5 ≤ sampleSize) (h2 : sampleSize < requiredSample)
    (h3 : 10 < improvement) :
    getRecommendation improvement sampleSize requiredSample =
      ⟨"Implement Variant", "#059669", Confidence.medium,
        "Strong positive impact on revenue"⟩ := by
  unfold getRecommendation
  simp only [if_neg (not_le.mpr h2), if_pos h1, if_pos h3,
    if_neg (by decide : ¬(Confidence.medium = Confidence.low))]

/-- C3 witness: the amended theorem applied at improvement 15,
sampleSize 6000, requiredSample 10000. -/
theorem C3_witness :
    getRecommendation 15 6000 10000 =
      ⟨"Implement Variant", "#059669", Confidence.medium,
        "Strong positive impact on revenue"⟩ :=
  C3_recommendation_amended 15 6000 10000 (by norm_num) (by norm_num) (by norm_num)

/-- C5 counterexample: with conversions 200 and visitors 100 — allowed by the
claim, which does not require conversions ≤ visitors — the conversion rate is
200, outside [0, 100]. -/
theorem C5_counterexample :
    (0 : ℚ) < 100 ∧ (0 : ℚ) ≤ 200 ∧ calculateConversionRate 200 100 = 200 ∧
      ¬calculateConversionRate 200 100 ≤ 100 := by
  norm_num [calculateConversionRate]

/-- C5 (amended): for visitors > 0 and 0 ≤ conversions ≤ visitors the
conversion rate lies in [0, 100], and for visitors = 0 it is 0 for every
conversions value. -/
theorem C5_conversionRate_bounds (conversions visitors : ℚ)
    (hv : 0 < visitors) (hc : 0 ≤ conversions) (hcv : conversions ≤ visitors) :
    0 ≤ calculateConversionRate conversions visitors ∧
      calculateConversionRate conversions visitors ≤ 100 ∧
      calculateConversionRate conversions 0 = 0 := by
  unfold calculateConversionRate
  rw [if_neg hv.ne', if_pos rfl]
  refine ⟨by positivity, ?_, rfl⟩
  have h1 : conversions / visitors ≤ 1 := (div_le_one hv).mpr hcv
  nlinarith

/-- C5 witness: the amended theorem applied at conversions 50, visitors 100. -/
theorem C5_witness :
    0 ≤ calculateConversionRate 50 100 ∧ calculateConversionRate 50 100 ≤ 100 ∧
      calculateConversionRate 50 0 = 0 :=
  C5_conversionRate_bounds 50 100 (by norm_num) (by norm_num) (by norm_num)

end ABTest

namespace ABTest

/-- C7 (confirmed): validateInputs returns an empty error list exactly when
pipelineValue > 0, 0 < closeRate ≤ 100, monthlyVisitors > 0 and both
mandatory entries satisfy visitors > 0, conversions ≥ 0 and
conversions ≤ visitors; and when the control entry has 0 visitors the error
list contains an error on field "controlVisitors". -/
theorem C7_validateInputs (bm : BusinessMetrics) (vs : Variants) :
    (validateInputs bm vs = [] ↔
      (0 < bm.pipelineValue ∧ (0 < bm.closeRate ∧ bm.closeRate ≤ 100) ∧
        0 < bm.monthlyVisitors ∧
        (0 < vs.control.visitors ∧ 0 ≤ vs.control.conversions ∧
          vs.control.conversions ≤ vs.control.visitors) ∧
        (0 < vs.variant.visitors ∧ 0 ≤ vs.variant.conversions ∧
          vs.variant.conversions ≤ vs.variant.visitors))) ∧
    (vs.control.visitors = 0 →
      ∃ e ∈ validateInputs bm vs, e.field = "controlVisitors") := by
  constructor
  · unfold validateInputs variantErrors
    simp only [List.append_eq_nil, ite_singleton_eq_nil, not_or, not_le, not_lt]
    tauto
  · intro h0
    have hmem : (⟨"controlVisitors", vs.control.name ++ " visitors must be greater than 0"⟩ :
        ValidationError) ∈ variantErrors "control" vs.control := by
      unfold variantErrors
      refine List.mem_append.mpr (Or.inl (List.mem_append.mpr (Or.inl ?_)))
      rw [if_pos h0.le]
      exact List.mem_singleton.mpr rfl
    refine ⟨⟨"controlVisitors",
      vs.control.name ++ " visitors must be greater than 0"⟩, ?_, rfl⟩
    unfold validateInputs
    exact List.mem_append.mpr (Or.inl (List.mem_append.mpr (Or.inr hmem)))

/-- C7 witness: a fully valid input yields the empty error list, and a
control entry with 0 visitors yields an error on field "controlVisitors". -/
theorem C7_witness :
    validateInputs ⟨1000, 20, 10000⟩ ⟨⟨"Control", 100, 10⟩, ⟨"Variant", 100, 15⟩, []⟩ = [] ∧
      ∃ e ∈ validateInputs ⟨1000, 20, 10000⟩ ⟨⟨"Control", 0, 0⟩, ⟨"Variant", 100, 15⟩, []⟩,
        e.field = "controlVisitors" :=
  ⟨(C7_validateInputs ⟨1000, 20, 10000⟩
      ⟨⟨"Control", 100, 10⟩, ⟨"Variant", 100, 15⟩, []⟩).1.mpr (by norm_num),
   (C7_validateInputs ⟨1000, 20, 10000⟩
      ⟨⟨"Control", 0, 0⟩, ⟨"Variant", 100, 15⟩, []⟩).2 rfl⟩

lemma buildTestResults_improvement (s : ℚ → ℚ) (vrs : List VariantResult)
    (c b : VariantResult) :
    (buildTestResults s vrs c b).improvement =
      jsMul (jsDiv (JSNum.fin (b.rate - c.rate)) (JSNum.fin c.rate)) (JSNum.fin 100) := rfl

lemma buildTestResults_winner (s : ℚ → ℚ) (vrs : List VariantResult)
    (c b : VariantResult) :
    (buildTestResults s vrs c b).winner =
      if c.rate < b.rate then b.name else c.name := rfl

lemma buildTestResults_variants (s : ℚ → ℚ) (vrs : List VariantResult)
    (c b : VariantResult) : (buildTestResults s vrs c b).variants = vrs := rfl

lemma buildTestResults_riskLevel (s : ℚ → ℚ) (vrs : List VariantResult)
    (c b : VariantResult) :
    (buildTestResults s vrs c b).riskLevel =
      if (vrs.map (significantFlag s c)).all (fun x => x) then
        (if jsGt (jsAbs (buildTestResults s vrs c b).improvement) (JSNum.fin 20)
         then RiskLevel.low else RiskLevel.medium)
      else RiskLevel.high := rfl

end ABTest

namespace ABTest

/-- C1 counterexample: on a validated input whose control has conversion rate
0 (visitors 100, conversions 0) and whose variant has rate 50, the source
returns a TestResults whose improvement is positive infinity — nothing flags
the undefined-improvement edge case. -/
theorem C1_counterexample :
    (calculateResults (fun _ => 0) ⟨1000, 20, 10000⟩
      ⟨⟨"Control", 100, 0⟩, ⟨"Variant", 100, 50⟩, []⟩).map TestResults.improvement
      = some JSNum.posInf := by
  simp +decide [calculateResults, validateInputs, variantErrors, variantResults,
    mkVariantResult, calculateConversionRate, calculateStandardError,
    additionalVariantResults, controlResult?, bestVariant?, reduceBest,
    buildTestResults, significantFlag, jsDiv, jsMul, jsGt, jsAbs, jsSqrt]

/-- C1 (amended): on validated inputs the improvement is reported unflagged:
when the control rate is 0 it is positive infinity for a positive best rate
(negative infinity for a negative one, NaN when the best rate is also 0), and
when the control rate is nonzero it is the finite value
(best.rate - control.rate) / control.rate * 100. -/
theorem C1_improvement_amended (s : ℚ → ℚ) (bm : BusinessMetrics) (vs : Variants)
    (c b : VariantResult)
    (hval : validateInputs bm vs = [])
    (hc : controlResult? (variantResults s bm vs) = some c)
    (hb : bestVariant? (variantResults s bm vs) = some b) :
    (calculateResults s bm vs).map TestResults.improvement =
      some (if c.rate = 0 then
              (if 0 < b.rate then JSNum.posInf
               else if b.rate < 0 then JSNum.negInf else JSNum.nan)
            else JSNum.fin ((b.rate - c.rate) / c.rate * 100)) := by
  unfold calculateResults
  rw [if_pos hval, hc, hb]
  simp only [Option.some_bind, Option.map_some', buildTestResults_improvement]
  by_cases h : c.rate = 0
  · rw [if_pos h, h, sub_zero]
    by_cases hb0 : 0 < b.rate
    · norm_num [jsDiv, jsMul, hb0]
    · by_cases hbneg : b.rate < 0
      · norm_num [jsDiv, jsMul, hb0, hbneg]
      · norm_num [jsDiv, jsMul, hb0, hbneg]
  · rw [if_neg h]
    simp only [jsDiv, if_neg h, jsMul]

/-- C1 witness: the amended theorem at control rate 10 and variant rate 15
yields the finite improvement 50. -/
theorem C1_witness :
    (calculateResults (fun _ => 0) ⟨1000, 20, 10000⟩
      ⟨⟨"Control", 100, 10⟩, ⟨"Variant", 100, 15⟩, []⟩).map TestResults.improvement
      = some (JSNum.fin 50) := by
  have h := C1_improvement_amended (fun _ => 0) ⟨1000, 20, 10000⟩
    ⟨⟨"Control", 100, 10⟩, ⟨"Variant", 100, 15⟩, []⟩
    (mkVariantResult (fun _ => 0) ⟨1000, 20, 10000⟩ "control" ⟨"Control", 100, 10⟩)
    (mkVariantResult (fun _ => 0) ⟨1000, 20, 10000⟩ "variant" ⟨"Variant", 100, 15⟩)
    (by norm_num [validateInputs, variantErrors])
    (controlResult?_variantResults _ _ _)
    (by simp [bestVariant?, filter_variantResults, additionalVariantResults, reduceBest])
  rw [h]
  norm_num [mkVariantResult, calculateConversionRate]

/-- C9 (confirmed): the best entry is a non-control member of the variant
results with maximal rate among non-control entries, and the winner is its
name exactly when its rate strictly exceeds the control rate (the control
name otherwise, ties included). -/
theorem C9_winner (s : ℚ → ℚ) (bm : BusinessMetrics) (vs : Variants)
    (c b : VariantResult) (r : TestResults)
    (hc : controlResult? (variantResults s bm vs) = some c)
    (hb : bestVariant? (variantResults s bm vs) = some b)
    (hr : calculateResults s bm vs = some r) :
    b ∈ variantResults s bm vs ∧ b.key ≠ "control" ∧
      (∀ w ∈ variantResults s bm vs, w.key ≠ "control" → w.rate ≤ b.rate) ∧
      r.winner = (if c.rate < b.rate then b.name else c.name) := by
  obtain ⟨hval, c', b', hc', hb', hbuild⟩ := calculateResults_inv s bm vs r hr
  rw [hc] at hc'
  injection hc' with hcc
  rw [hb] at hb'
  injection hb' with hbb
  subst hcc
  subst hbb
  subst hbuild
  exact ⟨(bestVariant?_mem _ _ hb).1, (bestVariant?_mem _ _ hb).2,
    bestVariant?_max _ _ hb, buildTestResults_winner _ _ _ _⟩

/-- C9 witness: with control rate 10 and variant rate 15 the winner is the
variant name. -/
theorem C9_witness :
    (calculateResults (fun _ => 0) ⟨1000, 20, 10000⟩
      ⟨⟨"Control", 100, 10⟩, ⟨"Variant", 100, 15⟩, []⟩).map TestResults.winner
      = some "Variant" := by
  cases hr : calculateResults (fun _ => 0) ⟨1000, 20, 10000⟩
      ⟨⟨"Control", 100, 10⟩, ⟨"Variant", 100, 15⟩, []⟩ with
  | none =>
    simp +decide [calculateResults, validateInputs, variantErrors, variantResults,
      mkVariantResult, calculateConversionRate, calculateStandardError,
      additionalVariantResults, controlResult?, bestVariant?, reduceBest,
      buildTestResults, significantFlag, jsDiv, jsMul, jsGt, jsAbs, jsSqrt] at hr
  | some r =>
    have h := C9_winner (fun _ => 0) ⟨1000, 20, 10000⟩
      ⟨⟨"Control", 100, 10⟩, ⟨"Variant", 100, 15⟩, []⟩
      (mkVariantResult (fun _ => 0) ⟨1000, 20, 10000⟩ "control" ⟨"Control", 100, 10⟩)
      (mkVariantResult (fun _ => 0) ⟨1000, 20, 10000⟩ "variant" ⟨"Variant", 100, 15⟩)
      r (controlResult?_variantResults _ _ _)
      (by simp [bestVariant?, filter_variantResults, additionalVariantResults, reduceBest])
      hr
    rw [Option.map_some', h.2.2.2]
    norm_num [mkVariantResult, calculateConversionRate]

/-- C10 (confirmed): the reduction keeps the current best unless a later rate
is strictly greater, so whenever the mandatory variant entry already has a
maximal rate among non-control entries — in particular on ties — the selected
best entry is exactly that first entry in iteration order. -/
theorem C10_first_max (s : ℚ → ℚ) (bm : BusinessMetrics) (vs : Variants)
    (b : VariantResult)
    (hb : bestVariant? (variantResults s bm vs) = some b)
    (hmax : ∀ w ∈ variantResults s bm vs, w.key ≠ "control" →
      w.rate ≤ (mkVariantResult s bm "variant" vs.variant).rate) :
    b = mkVariantResult s bm "variant" vs.variant := by
  unfold bestVariant? at hb
  rw [filter_variantResults] at hb
  have hb' : reduceBest (mkVariantResult s bm "variant" vs.variant)
      (additionalVariantResults s bm vs.additional) = b := by
    injection hb
  have hrates : ∀ w ∈ additionalVariantResults s bm vs.additional,
      w.rate ≤ (mkVariantResult s bm "variant" vs.variant).rate := by
    intro w hw
    apply hmax
    · rw [variantResults]
      exact List.mem_cons_of_mem _ (List.mem_cons_of_mem _ hw)
    · exact (mem_additionalVariantResults s bm vs.additional w hw).1
  rw [← hb']
  exact reduceBest_eq_self _ _ hrates

/-- C10 witness: with the mandatory variant and an additional entry both at
rate 15, the selected best entry is the mandatory variant entry. -/
theorem C10_witness :
    bestVariant? (variantResults (fun _ => 0) ⟨1000, 20, 10000⟩
        ⟨⟨"Control", 100, 10⟩, ⟨"Variant", 100, 15⟩, [("variant1", ⟨"V3", 100, 15⟩)]⟩) =
      some (mkVariantResult (fun _ => 0) ⟨1000, 20, 10000⟩ "variant"
        ⟨"Variant", 100, 15⟩) := by
  have hadds : additionalVariantResults (fun _ => 0) ⟨1000, 20, 10000⟩
      [("variant1", ⟨"V3", 100, 15⟩)] =
      [mkVariantResult (fun _ => 0) ⟨1000, 20, 10000⟩ "variant1" ⟨"V3", 100, 15⟩] := by
    rw [additionalVariantResults]
    simp only [List.filter_cons, List.filter_nil, List.filterMap_cons, List.filterMap_nil]
    simp +decide [List.filterMap_cons, List.filterMap_nil]
  have hb0 : bestVariant? (variantResults (fun _ => 0) ⟨1000, 20, 10000⟩
      ⟨⟨"Control", 100, 10⟩, ⟨"Variant", 100, 15⟩, [("variant1", ⟨"V3", 100, 15⟩)]⟩) =
      some (reduceBest
        (mkVariantResult (fun _ => 0) ⟨1000, 20, 10000⟩ "variant" ⟨"Variant", 100, 15⟩)
        [mkVariantResult (fun _ => 0) ⟨1000, 20, 10000⟩ "variant1" ⟨"V3", 100, 15⟩]) := by
    unfold bestVariant?
    rw [filter_variantResults, hadds]
  have heq := C10_first_max (fun _ => 0) ⟨1000, 20, 10000⟩
    ⟨⟨"Control", 100, 10⟩, ⟨"Variant", 100, 15⟩, [("variant1", ⟨"V3", 100, 15⟩)]⟩
    _ hb0 ?hmax
  · rw [hb0, heq]
  case hmax =>
    intro w hw _
    have hlist : variantResults (fun _ => 0) ⟨1000, 20, 10000⟩
        ⟨⟨"Control", 100, 10⟩, ⟨"Variant", 100, 15⟩, [("variant1", ⟨"V3", 100, 15⟩)]⟩ =
        [mkVariantResult (fun _ => 0) ⟨1000, 20, 10000⟩ "control" ⟨"Control", 100, 10⟩,
         mkVariantResult (fun _ => 0) ⟨1000, 20, 10000⟩ "variant" ⟨"Variant", 100, 15⟩,
         mkVariantResult (fun _ => 0) ⟨1000, 20, 10000⟩ "variant1" ⟨"V3", 100, 15⟩] := by
      rw [variantResults, hadds]
    rw [hlist] at hw
    rcases List.mem_cons.mp hw with rfl | hw1
    · norm_num [mkVariantResult, calculateConversionRate]
    rcases List.mem_cons.mp hw1 with rfl | hw2
    · norm_num [mkVariantResult, calculateConversionRate]
    rcases List.mem_cons.mp hw2 with rfl | hw3
    · norm_num [mkVariantResult, calculateConversionRate]
    · cases hw3

end ABTest

namespace ABTest

/-- C4 counterexample: on a validated input where control and variant both
have conversion rate 0 — identical rates — the improvement is NaN
(0 / 0 scaled by 100), not 0. -/
theorem C4_counterexample :
    (calculateResults (fun _ => 0) ⟨1000, 20, 10000⟩
      ⟨⟨"Control", 100, 0⟩, ⟨"Variant", 100, 0⟩, []⟩).map TestResults.improvement
      = some JSNum.nan := by
  simp +decide [calculateResults, validateInputs, variantErrors, variantResults,
    mkVariantResult, calculateConversionRate, calculateStandardError,
    additionalVariantResults, controlResult?, bestVariant?, reduceBest,
    buildTestResults, significantFlag, jsDiv, jsMul, jsGt, jsAbs, jsSqrt]

/-- C4 (amended): when all computed variant rates equal the control rate, all
pairwise significance flags against control are false and the riskLevel is
high; the improvement is 0 when the common rate is nonzero, and NaN when it
is 0. -/
theorem C4_identical_rates (s : ℚ → ℚ) (bm : BusinessMetrics) (vs : Variants)
    (c : VariantResult) (r : TestResults)
    (hc : controlResult? (variantResults s bm vs) = some c)
    (hr : calculateResults s bm vs = some r)
    (hsame : ∀ w ∈ variantResults s bm vs, w.rate = c.rate) :
    (∀ w ∈ variantResults s bm vs, w.key ≠ "control" → significantFlag s c w = false) ∧
      r.riskLevel = RiskLevel.high ∧
      r.improvement = (if c.rate = 0 then JSNum.nan else JSNum.fin 0) := by
  obtain ⟨hval, c', b, hc', hb, hbuild⟩ := calculateResults_inv s bm vs r hr
  rw [hc] at hc'
  injection hc' with hcc
  subst hcc
  subst hbuild
  have hflags : ∀ w ∈ variantResults s bm vs, w.key ≠ "control" →
      significantFlag s c w = false := by
    intro w hw hkey
    unfold significantFlag
    rw [if_neg hkey, hsame w hw, sub_self, abs_zero]
    have harg : ¬(w.error ^ 2 + c.error ^ 2 < 0) := not_lt.mpr (by positivity)
    simp only [jsSqrt, if_neg harg]
    by_cases hz : s (w.error ^ 2 + c.error ^ 2) = 0
    · norm_num [jsDiv, hz, jsGt]
    · norm_num [jsDiv, hz, jsGt, zero_div]
  have hmkv : mkVariantResult s bm "variant" vs.variant ∈ variantResults s bm vs := by
    rw [variantResults]
    exact List.mem_cons_of_mem _ (List.mem_cons_self _ _)
  have hflagv : significantFlag s c (mkVariantResult s bm "variant" vs.variant) = false :=
    hflags _ hmkv (by rw [mkVariantResult_key]; decide)
  have hallfalse : ((variantResults s bm vs).map (significantFlag s c)).all
      (fun x => x) = false := by
    apply List.all_eq_false.mpr
    refine ⟨false, ?_, by decide⟩
    rw [← hflagv]
    exact List.mem_map_of_mem _ hmkv
  refine ⟨hflags, ?_, ?_⟩
  · rw [buildTestResults_riskLevel, hallfalse]
    simp
  · rw [buildTestResults_improvement]
    have hbr : b.rate = c.rate := hsame b (bestVariant?_mem _ _ hb).1
    rw [hbr, sub_self]
    by_cases h0 : c.rate = 0
    · rw [if_pos h0, h0]
      norm_num [jsDiv, jsMul]
    · rw [if_neg h0]
      norm_num [jsDiv, h0, jsMul, zero_div]

/-- C4 witness: control and variant both at rate 10 (nonzero, identical)
yield riskLevel high and improvement 0. -/
theorem C4_witness :
    (calculateResults (fun _ => 0) ⟨1000, 20, 10000⟩
        ⟨⟨"Control", 100, 10⟩, ⟨"Variant", 100, 10⟩, []⟩).map TestResults.riskLevel
      = some RiskLevel.high ∧
    (calculateResults (fun _ => 0) ⟨1000, 20, 10000⟩
        ⟨⟨"Control", 100, 10⟩, ⟨"Variant", 100, 10⟩, []⟩).map TestResults.improvement
      = some (JSNum.fin 0) := by
  cases hr : calculateResults (fun _ => 0) ⟨1000, 20, 10000⟩
      ⟨⟨"Control", 100, 10⟩, ⟨"Variant", 100, 10⟩, []⟩ with
  | none =>
    simp +decide [calculateResults, validateInputs, variantErrors, variantResults,
      mkVariantResult, calculateConversionRate, calculateStandardError,
      additionalVariantResults, controlResult?, bestVariant?, reduceBest,
      buildTestResults, significantFlag, jsDiv, jsMul, jsGt, jsAbs, jsSqrt] at hr
  | some r =>
    have hlist : variantResults (fun _ => 0) ⟨1000, 20, 10000⟩
        ⟨⟨"Control", 100, 10⟩, ⟨"Variant", 100, 10⟩, []⟩ =
        [mkVariantResult (fun _ => 0) ⟨1000, 20, 10000⟩ "control" ⟨"Control", 100, 10⟩,
         mkVariantResult (fun _ => 0) ⟨1000, 20, 10000⟩ "variant" ⟨"Variant", 100, 10⟩] := by
      rw [variantResults]
      norm_num [additionalVariantResults]
    have h := C4_identical_rates (fun _ => 0) ⟨1000, 20, 10000⟩
      ⟨⟨"Control", 100, 10⟩, ⟨"Variant", 100, 10⟩, []⟩
      (mkVariantResult (fun _ => 0) ⟨1000, 20, 10000⟩ "control" ⟨"Control", 100, 10⟩)
      r (controlResult?_variantResults _ _ _) hr ?hsame
    · constructor
      · rw [Option.map_some', h.2.1]
      · rw [Option.map_some', h.2.2]
        norm_num [mkVariantResult, calculateConversionRate]
    case hsame =>
      intro w hw
      rw [hlist] at hw
      rcases List.mem_cons.mp hw with rfl | hw1
      · rfl
      rcases List.mem_cons.mp hw1 with rfl | hw2
      · rfl
      · cases hw2

end ABTest

namespace ABTest

/-- C6 (confirmed): riskLevel is high exactly when some non-control entry in
the variant results fails the z-test against control
(|rate difference| / sqrt(sum of squared standard errors) not strictly
greater than 1.96 under JavaScript comparison), and when every non-control
entry passes it, riskLevel is low when |improvement| > 20 and medium
otherwise. -/
theorem C6_riskLevel (s : ℚ → ℚ) (bm : BusinessMetrics) (vs : Variants)
    (c : VariantResult) (r : TestResults)
    (hc : controlResult? (variantResults s bm vs) = some c)
    (hr : calculateResults s bm vs = some r) :
    (r.riskLevel = RiskLevel.high ↔
      ∃ v ∈ variantResults s bm vs, v.key ≠ "control" ∧
        jsGt (jsDiv (JSNum.fin |v.rate - c.rate|)
                    (jsSqrt s (JSNum.fin (v.error ^ 2 + c.error ^ 2))))
             (JSNum.fin 1.96) = false) ∧
    ((∀ v ∈ variantResults s bm vs, v.key ≠ "control" →
        jsGt (jsDiv (JSNum.fin |v.rate - c.rate|)
                    (jsSqrt s (JSNum.fin (v.error ^ 2 + c.error ^ 2))))
             (JSNum.fin 1.96) = true) →
      r.riskLevel = if jsGt (jsAbs r.improvement) (JSNum.fin 20) then RiskLevel.low
                    else RiskLevel.medium) := by
  obtain ⟨hval, c', b, hc', hb, hbuild⟩ := calculateResults_inv s bm vs r hr
  rw [hc] at hc'
  injection hc' with hcc
  subst hcc
  subst hbuild
  have hallIff : (((variantResults s bm vs).map (significantFlag s c)).all
      (fun x => x) = true) ↔
      ∀ v ∈ variantResults s bm vs, v.key ≠ "control" →
        jsGt (jsDiv (JSNum.fin |v.rate - c.rate|)
                    (jsSqrt s (JSNum.fin (v.error ^ 2 + c.error ^ 2))))
             (JSNum.fin 1.96) = true := by
    rw [List.all_eq_true]
    constructor
    · intro h v hv hkey
      have h2 := h _ (List.mem_map_of_mem _ hv)
      simp only [significantFlag, if_neg hkey] at h2
      exact h2
    · intro h x hx
      obtain ⟨v, hv, rfl⟩ := List.mem_map.mp hx
      by_cases hkey : v.key = "control"
      · simp only [significantFlag, if_pos hkey]
      · simp only [significantFlag, if_neg hkey]
        exact h v hv hkey
  constructor
  · rw [buildTestResults_riskLevel]
    by_cases hall : ((variantResults s bm vs).map (significantFlag s c)).all
        (fun x => x) = true
    · rw [if_pos hall]
      constructor
      · intro hhigh
        by_cases hgt : jsGt (jsAbs (buildTestResults s (variantResults s bm vs)
            c b).improvement) (JSNum.fin 20) = true
        · rw [if_pos hgt] at hhigh
          cases hhigh
        · rw [if_neg hgt] at hhigh
          cases hhigh
      · rintro ⟨v, hv, hkey, hflagfalse⟩
        rw [hallIff.mp hall v hv hkey] at hflagfalse
        cases hflagfalse
    · rw [if_neg hall]
      refine ⟨fun _ => ?_, fun _ => rfl⟩
      by_contra hno
      push_neg at hno
      apply hall
      apply hallIff.mpr
      intro v hv hkey
      rcases Bool.eq_false_or_eq_true (jsGt (jsDiv (JSNum.fin |v.rate - c.rate|)
          (jsSqrt s (JSNum.fin (v.error ^ 2 + c.error ^ 2)))) (JSNum.fin 1.96)) with
        htrue | hfalse
      · exact htrue
      · exact absurd hfalse (hno v hv hkey)
  · intro hsig
    rw [buildTestResults_riskLevel, if_pos (hallIff.mpr hsig)]

/-- C6 witness: control rate 10 versus variant rate 12 with zero standard
errors makes the z-score infinite (significant), and |improvement| = 20 is
not strictly greater than 20, so riskLevel is medium. -/
theorem C6_witness :
    (calculateResults (fun _ => 0) ⟨1000, 20, 10000⟩
        ⟨⟨"Control", 100, 10⟩, ⟨"Variant", 100, 12⟩, []⟩).map TestResults.riskLevel
      = some RiskLevel.medium := by
  cases hr : calculateResults (fun _ => 0) ⟨1000, 20, 10000⟩
      ⟨⟨"Control", 100, 10⟩, ⟨"Variant", 100, 12⟩, []⟩ with
  | none =>
    simp +decide [calculateResults, validateInputs, variantErrors, variantResults,
      mkVariantResult, calculateConversionRate, calculateStandardError,
      additionalVariantResults, controlResult?, bestVariant?, reduceBest,
      buildTestResults, significantFlag, jsDiv, jsMul, jsGt, jsAbs, jsSqrt] at hr
  | some r =>
    have hlist : variantResults (fun _ => 0) ⟨1000, 20, 10000⟩
        ⟨⟨"Control", 100, 10⟩, ⟨"Variant", 100, 12⟩, []⟩ =
        [mkVariantResult (fun _ => 0) ⟨1000, 20, 10000⟩ "control" ⟨"Control", 100, 10⟩,
         mkVariantResult (fun _ => 0) ⟨1000, 20, 10000⟩ "variant" ⟨"Variant", 100, 12⟩] := by
      rw [variantResults]
      norm_num [additionalVariantResults]
    have himp : (calculateResults (fun _ => 0) ⟨1000, 20, 10000⟩
        ⟨⟨"Control", 100, 10⟩, ⟨"Variant", 100, 12⟩, []⟩).map TestResults.improvement
        = some (JSNum.fin 20) := by
      simp +decide [calculateResults, validateInputs, variantErrors, variantResults,
        mkVariantResult, calculateConversionRate, calculateStandardError,
        additionalVariantResults, controlResult?, bestVariant?, reduceBest,
        buildTestResults, significantFlag, jsDiv, jsMul, jsGt, jsAbs, jsSqrt]
      norm_num
    rw [hr, Option.map_some'] at himp
    injection himp with himp
    have h := (C6_riskLevel (fun _ => 0) ⟨1000, 20, 10000⟩
      ⟨⟨"Control", 100, 10⟩, ⟨"Variant", 100, 12⟩, []⟩
      (mkVariantResult (fun _ => 0) ⟨1000, 20, 10000⟩ "control" ⟨"Control", 100, 10⟩)
      r (controlResult?_variantResults _ _ _) hr).2 ?hsig
    · rw [Option.map_some', h, himp]
      norm_num [jsAbs, jsGt]
    case hsig =>
      intro v hv hkey
      rw [hlist] at hv
      rcases List.mem_cons.mp hv with rfl | hv1
      · exact absurd (mkVariantResult_key _ _ _ _) hkey
      rcases List.mem_cons.mp hv1 with rfl | hv2
      · norm_num [mkVariantResult, calculateConversionRate, calculateStandardError,
          jsSqrt, jsDiv, jsGt]
      · cases hv2

end ABTest

namespace ABTest

/-- C8 (confirmed): when the mandatory entries validate, an additional entry
appears in the computed variant results exactly when it satisfies
visitors > 0 and 0 ≤ conversions ≤ visitors, and validateInputs never
inspects additional entries (so no validation error is produced for them).
The key-uniqueness hypothesis reflects that the source stores variants in a
string-keyed record. -/
theorem C8_additional (s : ℚ → ℚ) (bm : BusinessMetrics) (vs : Variants)
    (r : TestResults) (k : String) (v : TestVariant)
    (hr : calculateResults s bm vs = some r)
    (hmem : (k, v) ∈ vs.additional)
    (hk : k ≠ "control" ∧ k ≠ "variant")
    (huniq : (vs.additional.map Prod.fst).Nodup) :
    ((∃ w ∈ r.variants, w.key = k) ↔
      (0 < v.visitors ∧ 0 ≤ v.conversions ∧ v.conversions ≤ v.visitors)) ∧
    validateInputs bm vs = validateInputs bm ⟨vs.control, vs.variant, []⟩ := by
  obtain ⟨hval, c', b', hc', hb', hbuild⟩ := calculateResults_inv s bm vs r hr
  subst hbuild
  rw [buildTestResults_variants]
  refine ⟨⟨?_, ?_⟩, rfl⟩
  · rintro ⟨w, hw, hwk⟩
    rw [variantResults] at hw
    rcases List.mem_cons.mp hw with rfl | hw1
    · rw [mkVariantResult_key] at hwk
      exact absurd hwk.symm hk.1
    rcases List.mem_cons.mp hw1 with rfl | hw2
    · rw [mkVariantResult_key] at hwk
      exact absurd hwk.symm hk.2
    · unfold additionalVariantResults at hw2
      obtain ⟨kv, hkv, hsome⟩ := List.mem_filterMap.mp hw2
      obtain ⟨hkvmem, hkey⟩ := List.mem_filter.mp hkv
      by_cases hcond : kv.2.visitors ≤ 0 ∨ kv.2.conversions < 0 ∨
          kv.2.conversions > kv.2.visitors
      · rw [if_pos hcond] at hsome
        cases hsome
      · rw [if_neg hcond] at hsome
        injection hsome with hw'
        have hk1 : kv.1 = k := by
          rw [← hwk, ← hw', mkVariantResult_key]
        have hkv2 : kv = (k, v) :=
          List.inj_on_of_nodup_map huniq hkvmem hmem (by rw [hk1])
        rw [hkv2] at hcond
        push_neg at hcond
        exact ⟨hcond.1, hcond.2.1, hcond.2.2⟩
  · intro hvalid
    refine ⟨mkVariantResult s bm k v, ?_, mkVariantResult_key s bm k v⟩
    rw [variantResults]
    refine List.mem_cons_of_mem _ (List.mem_cons_of_mem _ ?_)
    unfold additionalVariantResults
    apply List.mem_filterMap.mpr
    refine ⟨(k, v), List.mem_filter.mpr ⟨hmem, ?_⟩, ?_⟩
    · simp [hk.1, hk.2]
    · have hcond : ¬(v.visitors ≤ 0 ∨ v.conversions < 0 ∨
          v.conversions > v.visitors) := by
        push_neg
        exact ⟨hvalid.1, hvalid.2.1, hvalid.2.2⟩
      show (if v.visitors ≤ 0 ∨ v.conversions < 0 ∨ v.conversions > v.visitors
        then none else some (mkVariantResult s bm k v)) = some (mkVariantResult s bm k v)
      rw [if_neg hcond]

/-- C8 witness: a third entry with visitors 0 alongside valid mandatory
entries is excluded from the computed variant results while the computation
still succeeds. -/
theorem C8_witness :
    ∃ r, calculateResults (fun _ => 0) ⟨1000, 20, 10000⟩
        ⟨⟨"Control", 100, 10⟩, ⟨"Variant", 100, 15⟩, [("variant1", ⟨"V3", 0, 0⟩)]⟩
        = some r ∧
      ¬∃ w ∈ r.variants, w.key = "variant1" := by
  cases hr : calculateResults (fun _ => 0) ⟨1000, 20, 10000⟩
      ⟨⟨"Control", 100, 10⟩, ⟨"Variant", 100, 15⟩, [("variant1", ⟨"V3", 0, 0⟩)]⟩ with
  | none =>
    simp +decide [calculateResults, validateInputs, variantErrors, variantResults,
      mkVariantResult, calculateConversionRate, calculateStandardError,
      additionalVariantResults, controlResult?, bestVariant?, reduceBest,
      buildTestResults, significantFlag, jsDiv, jsMul, jsGt, jsAbs, jsSqrt] at hr
  | some r =>
    refine ⟨r, rfl, ?_⟩
    intro hex
    have h := (C8_additional (fun _ => 0) ⟨1000, 20, 10000⟩
      ⟨⟨"Control", 100, 10⟩, ⟨"Variant", 100, 15⟩, [("variant1", ⟨"V3", 0, 0⟩)]⟩
      r "variant1" ⟨"V3", 0, 0⟩ hr (by simp) ⟨by decide, by decide⟩ (by simp)).1.mp hex
    have h1 := h.1
    norm_num at h1

end ABTest
